import Mathlib

/-!
# RadiologyAI Pro — shallow embedding

A shallow embedding of the session-level logic of the two Streamlit
applications `app.py` and `app2.py` of the RadiologyAI Pro repository.
External collaborators (the PIL image decoder, the Gemini inference
endpoint) are passed in as function parameters; Streamlit session state is
an explicit record; the messages the UI surfaces (`st.error`,
`st.success`) are collected in lists.

Python string operations used by the code (`str.split('\n')`,
`str.strip()`, `str.startswith('#')`, `str.replace`, `str.lower`) are
re-implemented here over `List Char` so that every definition reduces in
the kernel.
-/

namespace RadiologyAI

/-- A decoded in-memory image (PIL `Image`): pixel buffer plus
width/height, the "Bitmap" of the spec. -/
structure Bitmap where
  width : Nat
  height : Nat
  pixels : List Nat
deriving Repr, DecidableEq

/-- One entry of `st.session_state.history` as built in
`app2.py` `save_to_history` (lines 107-113): a dict with keys
`timestamp`, `type`, `image`, `report`. Timestamps are abstracted
to a `Nat` tick. -/
structure HistoryEntry where
  timestamp : Nat
  type : String
  image : Bitmap
  report : String
deriving Repr, DecidableEq

/-- The Streamlit session state of `app2.py`: `history` and
`comparison_mode` are initialised at lines 41-44; `report_text`,
`report_image`, `report_type` are option-valued because those keys
are only present after a successful analysis (a missing key is
`none`, `del` sets the field back to `none`). -/
structure SessionState where
  history : List HistoryEntry
  comparison_mode : Bool
  report_text : Option String
  report_image : Option Bitmap
  report_type : Option String
deriving Repr, DecidableEq

/-- `app2.py` lines 107-115: append the new history dict, then if the
list length exceeds 10, `pop(0)` the oldest entry. -/
def save_to_history (report_type : String) (image : Bitmap) (report_text : String)
    (ts : Nat) (history : List HistoryEntry) : List HistoryEntry :=
  let h := history ++ [{ timestamp := ts, type := report_type, image := image, report := report_text }]
  if 10 < h.length then h.drop 1 else h

/-- The request `model.generate_content([prompt, image])` actually sends
to the inference endpoint: the (possibly extended) prompt and the bitmap. -/
structure GenCall where
  prompt : String
  image : Bitmap
deriving Repr, DecidableEq

/-- What a call to `generate_report` produces: the optional returned text,
the `st.error` messages emitted, and the requests dispatched. -/
structure GenOutcome where
  result : Option String
  errors : List String
  calls : List GenCall
deriving Repr, DecidableEq

/-- The instruction string appended to the prompt when
`include_confidence` is set (`app2.py` line 58). -/
def confidenceInstruction : String :=
  "\n\nIMPORTANT: Include a confidence score (0-100%) for each finding."

/-- `app2.py` lines 54-63: extend the prompt when `include_confidence`,
send one blocking call, and return `response.text`; any raised exception
becomes an `st.error` message and a `None` result. The endpoint
(`model.generate_content` plus `.text`) is a parameter; `.error e` stands
for a call raising an exception with message `e`. -/
def generate_report (endpoint : GenCall → Except String String)
    (image : Bitmap) (prompt : String) (include_confidence : Bool) : GenOutcome :=
  let prompt := if include_confidence then prompt ++ confidenceInstruction else prompt
  let call : GenCall := { prompt := prompt, image := image }
  match endpoint call with
  | .ok t => { result := some t, errors := [], calls := [call] }
  | .error e => { result := none, errors := ["❌ Error: " ++ e], calls := [call] }

/-- `app2.py` lines 47-52: `Image.open` on the uploaded stream, abstracted
as the `decode` parameter; a decode exception becomes an `st.error`
message and a `None` bitmap. -/
def process_image (decode : List Nat → Except String Bitmap) (file : List Nat) :
    Option Bitmap × List String :=
  match decode file with
  | .ok img => (some img, [])
  | .error e => (none, ["❌ Error: " ++ e])

/-- `app2.py` lines 317-322: the Clear button deletes the keys
`report_text`, `report_image`, `report_type` from session state when
present (a deleted key is `none` here). -/
def clear_results (s : SessionState) : SessionState :=
  { s with report_text := none, report_image := none, report_type := none }

/-- Everything one Analyze-button run produces: the resulting session
state, the report shown in the report box (if any), the UI messages, and
the dispatched inference requests. -/
structure ClickOutcome where
  state : SessionState
  shown : Option String
  messages : List String
  calls : List GenCall
deriving Repr, DecidableEq

/-- `app2.py` lines 280-292: the Analyze button handler. It calls
`generate_report` with `include_confidence=True`; a truthy result (not
`None` and not the empty string, Python `if result:`) is shown, stored in
`report_text`/`report_image`/`report_type` and appended to history. -/
def analyze_click (endpoint : GenCall → Except String String)
    (title prompt : String) (image : Bitmap) (ts : Nat) (s : SessionState) : ClickOutcome :=
  let g := generate_report endpoint image prompt true
  match g.result with
  | some r =>
      if r = "" then { state := s, shown := none, messages := g.errors, calls := g.calls }
      else
        { state :=
            { s with
              report_text := some r
              report_image := some image
              report_type := some title
              history := save_to_history title image r ts s.history }
          shown := some r
          messages := g.errors ++ ["✅ Analysis complete!"]
          calls := g.calls }
  | none => { state := s, shown := none, messages := g.errors, calls := g.calls }

/-- `app2.py` lines 267-292: decoding of the uploaded stream followed by
the Analyze click; the analysis only runs when `process_image` produced a
bitmap. -/
def analysis_page_flow (decode : List Nat → Except String Bitmap)
    (endpoint : GenCall → Except String String)
    (title prompt : String) (file : List Nat) (ts : Nat) (s : SessionState) : ClickOutcome :=
  match process_image decode file with
  | (some image, _) => analyze_click endpoint title prompt image ts s
  | (none, errs) => { state := s, shown := none, messages := errs, calls := [] }

/-- The prompt literal of the Compare page (`app2.py` lines 235-239),
including the indentation inside the triple-quoted string. -/
def comparePrompt : String :=
  "Compare these two medical images. Provide:\n        1. Similarities and differences\n        2. Changes observed (if temporal comparison)\n        3. Clinical significance of differences\n        4. Recommendations"

/-- `app2.py` lines 234-243: the Compare-page button handler. Both decoded
images are in scope, but only `img1` is passed to `generate_report`
(default `include_confidence=False`). -/
def compare_click (endpoint : GenCall → Except String String)
    (img1 img2 : Bitmap) : GenOutcome :=
  generate_report endpoint img1 comparePrompt false

/-- A wall-clock instant as produced by `datetime.now()`, to the fields
the apps' format strings read. -/
structure Timestamp where
  year : Nat
  month : Nat
  day : Nat
  hour : Nat
  minute : Nat
  second : Nat
deriving Repr, DecidableEq

/-- Two-digit zero-padded decimal, as `%m`, `%d`, `%H`, `%M`, `%S`. -/
def pad2 (n : Nat) : String := if n < 10 then "0" ++ toString n else toString n

/-- Four-digit zero-padded decimal, as `%Y`. -/
def pad4 (n : Nat) : String :=
  if n < 10 then "000" ++ toString n
  else if n < 100 then "00" ++ toString n
  else if n < 1000 then "0" ++ toString n
  else toString n

/-- `datetime.now().strftime('%Y%m%d_%H%M%S')`, the timestamp used in
every download filename of both apps. -/
def timestampCompact (t : Timestamp) : String :=
  pad4 t.year ++ pad2 t.month ++ pad2 t.day ++ "_" ++ pad2 t.hour ++ pad2 t.minute ++ pad2 t.second

/-- Python `str.lower()` (the report types in the filenames are ASCII). -/
def pyLower (s : String) : String := ⟨s.data.map Char.toLower⟩

/-- Python `str.replace(' ', '_')`. -/
def spaceToUnderscore (s : String) : String :=
  ⟨s.data.map (fun c => if c = ' ' then '_' else c)⟩

/-- `.txt` filename of `app.py` line 702:
`{report_type.lower().replace(' ', '_')}_{timestamp}.txt`. -/
def txt_filename_app (report_type : String) (t : Timestamp) : String :=
  spaceToUnderscore (pyLower report_type) ++ "_" ++ timestampCompact t ++ ".txt"

/-- `.pdf` filename of `app.py` line 730. -/
def pdf_filename_app (report_type : String) (t : Timestamp) : String :=
  spaceToUnderscore (pyLower report_type) ++ "_" ++ timestampCompact t ++ ".pdf"

/-- `.txt` filename of `app2.py` line 303: `report_{timestamp}.txt`. -/
def txt_filename_app2 (t : Timestamp) : String :=
  "report_" ++ timestampCompact t ++ ".txt"

/-- `.pdf` filename of `app2.py` line 314: `report_{timestamp}.pdf`. -/
def pdf_filename_app2 (t : Timestamp) : String :=
  "report_" ++ timestampCompact t ++ ".pdf"

/-- One `st.download_button`: the payload string whose UTF-8 bytes are
offered, the filename and the MIME type. -/
structure Download where
  data : String
  filename : String
  mime : String
deriving Repr, DecidableEq

/-- `app2.py` lines 295-303: the text-export button, rendered only when
`report_text` is in session state; its payload is
`st.session_state['report_text']` passed through unchanged. -/
def export_txt_app2 (s : SessionState) (t : Timestamp) : Option Download :=
  match s.report_text with
  | some rt => some { data := rt, filename := txt_filename_app2 t, mime := "text/plain" }
  | none => none

/-- `app.py` lines 691-705: the text-export button of the first app; the
payload is again the stored report string, and the filename also carries
the page's `report_type`. -/
def export_txt_app (s : SessionState) (report_type : String) (t : Timestamp) : Option Download :=
  match s.report_text with
  | some rt => some { data := rt, filename := txt_filename_app report_type t, mime := "text/plain" }
  | none => none

/-- The first list begins the second one (Boolean prefix test). -/
def beginsWith : List Char → List Char → Bool
  | [], _ => true
  | _ :: _, [] => false
  | a :: as, b :: bs => a = b && beginsWith as bs

/-- Python `needle in hay` for strings, on character lists. -/
def containsSub (needle : List Char) : List Char → Bool
  | [] => beginsWith needle []
  | c :: rest => beginsWith needle (c :: rest) || containsSub needle rest

/-- Python `str.split('\n')` on a character list: `[] ↦ [[]]`, and each
newline separates chunks. -/
def splitOnNL : List Char → List (List Char)
  | [] => [[]]
  | c :: cs =>
      if c = '\n' then [] :: splitOnNL cs
      else
        match splitOnNL cs with
        | [] => [[c]]
        | l :: ls => (c :: l) :: ls

/-- Python `report_text.split('\n')`. -/
def splitLines (s : String) : List String := (splitOnNL s.data).map (fun l => ⟨l⟩)

/-- The ASCII whitespace removed by Python `str.strip()`. -/
def isPySpace (c : Char) : Bool :=
  c = ' ' || c = '\t' || c = '\n' || c = '\r' || c = '\x0b' || c = '\x0c'

/-- Python `str.strip()`. -/
def pyStrip (s : String) : String :=
  ⟨((s.data.dropWhile isPySpace).reverse.dropWhile isPySpace).reverse⟩

/-- Python truthiness of a string: non-empty. -/
def pyTruthy (s : String) : Bool := !s.data.isEmpty

/-- Python `line.startswith('#')` on the raw (unstripped) line. -/
def startsWithHash (s : String) : Bool :=
  match s.data with
  | [] => false
  | c :: _ => c = '#'

/-- Python `line.replace('#', '')`: every `'#'` removed. -/
def removeHash (s : String) : String := ⟨s.data.filter (fun c => !(c = '#'))⟩

/-- One flowable appended to the reportlab `story`, at the level of
detail the claims need: which paragraph style a line gets. -/
inductive PdfElem where
  | title (text : String)
  | heading (text : String)
  | normal (text : String)
  | spacer
  | image (b : Bitmap)
deriving Repr, DecidableEq

/-- `true` exactly on heading-style paragraphs. -/
def isHeadingElem : PdfElem → Bool
  | .heading _ => true
  | _ => false

/-- `app.py` lines 260-266, the report-text section of
`create_pdf_report`: each non-blank line whose raw text starts with `'#'`
becomes a heading-style paragraph (all `'#'` removed, then stripped), any
other non-blank line a normal paragraph; each is followed by a spacer. -/
def create_pdf_report_body (report_text : String) : List PdfElem :=
  (splitLines report_text).flatMap (fun line =>
    if pyTruthy (pyStrip line) then
      if startsWithHash line then
        [.heading (pyStrip (removeHash line)), .spacer]
      else
        [.normal line, .spacer]
    else [])

/-- `app2.py` lines 91-93, the report-text section of `create_pdf`: every
non-blank line becomes a normal-style paragraph; there is no `'#'`
handling at all. -/
def create_pdf_body_app2 (report_text : String) : List PdfElem :=
  (splitLines report_text).flatMap (fun line =>
    if pyTruthy (pyStrip line) then [.normal line] else [])

end RadiologyAI

namespace RadiologyAI

/-- C1: applied to a history of length at most 10, `save_to_history`
returns a list of length at most 10 equal to the old list with the new
entry appended, the oldest entry dropped exactly when the old list
already had 10 entries. -/
theorem save_to_history_cap_fifo (rt : String) (img : Bitmap) (txt : String)
    (ts : Nat) (history : List HistoryEntry) (hlen : history.length ≤ 10) :
    (save_to_history rt img txt ts history).length ≤ 10 ∧
    save_to_history rt img txt ts history =
      (if history.length = 10 then history.drop 1 else history)
        ++ [{ timestamp := ts, type := rt, image := img, report := txt }] := by
  unfold save_to_history
  by_cases h10 : history.length = 10
  · have hc : 10 < (history ++ [({ timestamp := ts, type := rt, image := img, report := txt } : HistoryEntry)]).length := by
      rw [List.length_append, h10]
      simp
    rw [if_pos hc, if_pos h10]
    constructor
    · rw [List.length_drop, List.length_append, h10]
      simp
    · cases history with
      | nil => simp at h10
      | cons a t => simp
  · have hlt : history.length < 10 := lt_of_le_of_ne hlen h10
    have hc : ¬ 10 < (history ++ [({ timestamp := ts, type := rt, image := img, report := txt } : HistoryEntry)]).length := by
      rw [List.length_append]
      simp only [List.length_cons, List.length_nil]
      omega
    rw [if_neg hc, if_neg h10]
    refine ⟨?_, rfl⟩
    rw [List.length_append]
    simp only [List.length_cons, List.length_nil]
    omega

/-- Witness for `save_to_history_cap_fifo` at the empty history. -/
theorem save_to_history_cap_fifo_witness :
    (save_to_history "X-ray" ⟨1, 1, [0]⟩ "r" 0 []).length ≤ 10 ∧
    save_to_history "X-ray" ⟨1, 1, [0]⟩ "r" 0 [] =
      (if ([] : List HistoryEntry).length = 10 then List.drop 1 [] else [])
        ++ [{ timestamp := 0, type := "X-ray", image := ⟨1, 1, [0]⟩, report := "r" }] :=
  save_to_history_cap_fifo "X-ray" ⟨1, 1, [0]⟩ "r" 0 [] (by decide)

/-- C4: the Clear handler removes exactly the three current-result keys
(`report_text`, `report_image`, `report_type`) and leaves the rest of the
session state — the history list and the comparison flag — unchanged. -/
theorem clear_results_frame (s : SessionState) :
    (clear_results s).report_text = none ∧
    (clear_results s).report_image = none ∧
    (clear_results s).report_type = none ∧
    (clear_results s).history = s.history ∧
    (clear_results s).comparison_mode = s.comparison_mode :=
  ⟨rfl, rfl, rfl, rfl, rfl⟩

/-- C5: an undecodable upload yields exactly one error message and no
bitmap, and a decodable upload yields the decoded bitmap and no message. -/
theorem process_image_spec (decode : List Nat → Except String Bitmap) (file : List Nat) :
    (∀ e, decode file = .error e →
        process_image decode file = (none, ["❌ Error: " ++ e])) ∧
    (∀ img, decode file = .ok img →
        process_image decode file = (some img, [])) := by
  constructor
  · intro e he
    simp [process_image, he]
  · intro img hi
    simp [process_image, hi]

/-- Witness for `process_image_spec`, with a failing and a succeeding
decoder on the stream `[0, 1]`. -/
theorem process_image_spec_witness :
    process_image (fun _ => .error "cannot identify image file") [0, 1] =
      (none, ["❌ Error: " ++ "cannot identify image file"]) ∧
    process_image (fun _ => .ok ⟨2, 2, [0, 0, 0, 0]⟩) [0, 1] =
      (some ⟨2, 2, [0, 0, 0, 0]⟩, []) :=
  ⟨(process_image_spec (fun _ => .error "cannot identify image file") [0, 1]).1 _ rfl,
   (process_image_spec (fun _ => .ok ⟨2, 2, [0, 0, 0, 0]⟩) [0, 1]).2 _ rfl⟩

/-- C8: with `include_confidence` true `generate_report` dispatches
exactly the given prompt with the confidence instruction appended at the
end; with it false, the prompt unchanged; in both cases a successful
response text is returned verbatim. -/
theorem generate_report_dispatch (endpoint : GenCall → Except String String)
    (image : Bitmap) (prompt : String) :
    (generate_report endpoint image prompt true).calls =
      [{ prompt := prompt ++ confidenceInstruction, image := image }] ∧
    (generate_report endpoint image prompt false).calls =
      [{ prompt := prompt, image := image }] ∧
    (∀ t, endpoint { prompt := prompt ++ confidenceInstruction, image := image } = .ok t →
        (generate_report endpoint image prompt true).result = some t) ∧
    (∀ t, endpoint { prompt := prompt, image := image } = .ok t →
        (generate_report endpoint image prompt false).result = some t) := by
  unfold generate_report
  refine ⟨?_, ?_, ?_, ?_⟩
  · cases h : endpoint { prompt := prompt ++ confidenceInstruction, image := image } <;> simp [h]
  · cases h : endpoint { prompt := prompt, image := image } <;> simp [h]
  · intro t ht
    simp [ht]
  · intro t ht
    simp [ht]

/-- Witness for `generate_report_dispatch` with an endpoint echoing its
prompt. -/
theorem generate_report_dispatch_witness :
    (generate_report (fun c => .ok ("R:" ++ c.prompt)) ⟨1, 1, [0]⟩ "P" true).calls =
      [{ prompt := "P" ++ confidenceInstruction, image := ⟨1, 1, [0]⟩ }] ∧
    (generate_report (fun c => .ok ("R:" ++ c.prompt)) ⟨1, 1, [0]⟩ "P" true).result =
      some ("R:" ++ ("P" ++ confidenceInstruction)) :=
  ⟨(generate_report_dispatch (fun c => .ok ("R:" ++ c.prompt)) ⟨1, 1, [0]⟩ "P").1,
   (generate_report_dispatch (fun c => .ok ("R:" ++ c.prompt)) ⟨1, 1, [0]⟩ "P").2.2.1 _ rfl⟩

/-- C3: when the inference call fails, the Analyze handler surfaces
exactly the error message, shows no report, and leaves the whole session
state — in particular `report_text`, `report_image`, `report_type` and the
history list — exactly as it was. -/
theorem analyze_click_failure_atomic (endpoint : GenCall → Except String String)
    (title prompt : String) (image : Bitmap) (ts : Nat) (s : SessionState) (e : String)
    (h : endpoint { prompt := prompt ++ confidenceInstruction, image := image } = .error e) :
    (analyze_click endpoint title prompt image ts s).state = s ∧
    (analyze_click endpoint title prompt image ts s).shown = none ∧
    (analyze_click endpoint title prompt image ts s).messages = ["❌ Error: " ++ e] ∧
    (analyze_click endpoint title prompt image ts s).state.report_text = s.report_text ∧
    (analyze_click endpoint title prompt image ts s).state.report_image = s.report_image ∧
    (analyze_click endpoint title prompt image ts s).state.report_type = s.report_type ∧
    (analyze_click endpoint title prompt image ts s).state.history = s.history := by
  have hg : generate_report endpoint image prompt true =
      { result := none, errors := ["❌ Error: " ++ e],
        calls := [{ prompt := prompt ++ confidenceInstruction, image := image }] } := by
    unfold generate_report
    simp [h]
  unfold analyze_click
  rw [hg]
  exact ⟨rfl, rfl, rfl, rfl, rfl, rfl, rfl⟩

/-- Witness for `analyze_click_failure_atomic`: a failing endpoint leaves
a concrete populated session state untouched and shows nothing. -/
theorem analyze_click_failure_atomic_witness :
    (analyze_click (fun _ => .error "quota exceeded") "🩻 X-ray Analysis" "P" ⟨1, 1, [0]⟩ 3
        { history := [{ timestamp := 0, type := "T", image := ⟨1, 1, [0]⟩, report := "old" }],
          comparison_mode := false, report_text := some "old",
          report_image := some ⟨1, 1, [0]⟩, report_type := some "T" }).state =
      { history := [{ timestamp := 0, type := "T", image := ⟨1, 1, [0]⟩, report := "old" }],
        comparison_mode := false, report_text := some "old",
        report_image := some ⟨1, 1, [0]⟩, report_type := some "T" } ∧
    (analyze_click (fun _ => .error "quota exceeded") "🩻 X-ray Analysis" "P" ⟨1, 1, [0]⟩ 3
        { history := [{ timestamp := 0, type := "T", image := ⟨1, 1, [0]⟩, report := "old" }],
          comparison_mode := false, report_text := some "old",
          report_image := some ⟨1, 1, [0]⟩, report_type := some "T" }).shown = none :=
  ⟨(analyze_click_failure_atomic _ "🩻 X-ray Analysis" "P" ⟨1, 1, [0]⟩ 3 _ "quota exceeded" rfl).1,
   (analyze_click_failure_atomic _ "🩻 X-ray Analysis" "P" ⟨1, 1, [0]⟩ 3 _ "quota exceeded" rfl).2.1⟩

/-- C9: when the upload decodes to a bitmap and the analysis succeeds
with a non-empty report, that decoded bitmap itself is stored as the
result image, so the stored image's width and height equal the decoded
ones. -/
theorem analysis_flow_stores_bitmap (decode : List Nat → Except String Bitmap)
    (endpoint : GenCall → Except String String) (title prompt : String)
    (file : List Nat) (ts : Nat) (s : SessionState) (image : Bitmap) (r : String)
    (hdec : decode file = .ok image)
    (hok : endpoint { prompt := prompt ++ confidenceInstruction, image := image } = .ok r)
    (hne : r ≠ "") :
    (analysis_page_flow decode endpoint title prompt file ts s).state.report_image = some image ∧
    ∀ b, (analysis_page_flow decode endpoint title prompt file ts s).state.report_image = some b →
        b.width = image.width ∧ b.height = image.height := by
  have h1 : analysis_page_flow decode endpoint title prompt file ts s =
      analyze_click endpoint title prompt image ts s := by
    unfold analysis_page_flow process_image
    simp [hdec]
  have hg : generate_report endpoint image prompt true =
      { result := some r, errors := [],
        calls := [{ prompt := prompt ++ confidenceInstruction, image := image }] } := by
    unfold generate_report
    simp [hok]
  have h2 : (analyze_click endpoint title prompt image ts s).state.report_image = some image := by
    unfold analyze_click
    rw [hg]
    simp [hne]
  refine ⟨h1 ▸ h2, ?_⟩
  intro b hb
  rw [h1, h2] at hb
  cases hb
  exact ⟨rfl, rfl⟩

/-- Witness for `analysis_flow_stores_bitmap` on a 640×480 decode. -/
theorem analysis_flow_stores_bitmap_witness :
    (analysis_page_flow (fun _ => .ok ⟨640, 480, []⟩) (fun _ => .ok "Report body")
        "🩻 X-ray Analysis" "P" [0] 0
        ⟨[], false, none, none, none⟩).state.report_image = some ⟨640, 480, []⟩ :=
  (analysis_flow_stores_bitmap (fun _ => .ok ⟨640, 480, []⟩) (fun _ => .ok "Report body")
    "🩻 X-ray Analysis" "P" [0] 0 ⟨[], false, none, none, none⟩ ⟨640, 480, []⟩
    "Report body" rfl rfl (by decide)).1

/-- C10: the Compare-page outcome depends only on the first image: for
any two second images (same first image) the whole outcome is identical,
and the single dispatched request carries the comparison prompt and the
first image. -/
theorem compare_click_ignores_second (endpoint : GenCall → Except String String)
    (img1 a b : Bitmap) :
    compare_click endpoint img1 a = compare_click endpoint img1 b ∧
    (compare_click endpoint img1 a).calls = [{ prompt := comparePrompt, image := img1 }] := by
  constructor
  · rfl
  · unfold compare_click generate_report
    cases h : endpoint { prompt := comparePrompt, image := img1 } <;> simp [h]

/-- C2: the text-export payload is exactly the stored report string, in
both apps, with no transformation applied. -/
theorem export_txt_identity (s : SessionState) (rtype : String) (t : Timestamp) (rt : String)
    (h : s.report_text = some rt) :
    (∃ d, export_txt_app2 s t = some d ∧ d.data = rt) ∧
    (∃ d, export_txt_app s rtype t = some d ∧ d.data = rt) := by
  refine ⟨⟨{ data := rt, filename := txt_filename_app2 t, mime := "text/plain" }, ?_, rfl⟩,
          ⟨{ data := rt, filename := txt_filename_app rtype t, mime := "text/plain" }, ?_, rfl⟩⟩
  · unfold export_txt_app2
    rw [h]
  · unfold export_txt_app
    rw [h]

/-- Witness for `export_txt_identity` on a concrete stored report. -/
theorem export_txt_identity_witness :
    (∃ d, export_txt_app2 ⟨[], false, some "FINDINGS: clear", none, none⟩ ⟨2024, 1, 1, 12, 0, 0⟩ =
        some d ∧ d.data = "FINDINGS: clear") ∧
    (∃ d, export_txt_app ⟨[], false, some "FINDINGS: clear", none, none⟩ "X-ray Analysis"
        ⟨2024, 1, 1, 12, 0, 0⟩ = some d ∧ d.data = "FINDINGS: clear") :=
  export_txt_identity ⟨[], false, some "FINDINGS: clear", none, none⟩ "X-ray Analysis"
    ⟨2024, 1, 1, 12, 0, 0⟩ "FINDINGS: clear" rfl

/-- C6 counterexample: in `app2.py`'s `create_pdf` a report line starting
with `'#'` is rendered as a normal-style paragraph; no heading-style
paragraph appears at all. -/
theorem create_pdf_app2_hash_not_heading :
    startsWithHash "# Findings" = true ∧
    create_pdf_body_app2 "# Findings" = [PdfElem.normal "# Findings"] ∧
    (create_pdf_body_app2 "# Findings").any isHeadingElem = false := by
  refine ⟨by decide, by decide, by decide⟩

/-- C6 amended: in `app.py`'s `create_pdf_report` every non-blank line
that starts with `'#'` contributes a heading-style paragraph (the line
with every `'#'` removed and stripped); in `app2.py`'s `create_pdf` no
line ever produces a heading-style paragraph. -/
theorem create_pdf_heading_lines (t line : String)
    (hmem : line ∈ splitLines t)
    (hne : pyTruthy (pyStrip line) = true)
    (hh : startsWithHash line = true) :
    PdfElem.heading (pyStrip (removeHash line)) ∈ create_pdf_report_body t ∧
    ∀ e ∈ create_pdf_body_app2 t, isHeadingElem e = false := by
  constructor
  · unfold create_pdf_report_body
    refine List.mem_flatMap.mpr ⟨line, hmem, ?_⟩
    simp [hne, hh]
  · intro e he
    unfold create_pdf_body_app2 at he
    obtain ⟨l, _, hel⟩ := List.mem_flatMap.mp he
    by_cases hl : pyTruthy (pyStrip l) = true
    · rw [if_pos hl] at hel
      rw [List.mem_singleton.mp hel]
      rfl
    · rw [if_neg hl] at hel
      exact absurd hel (List.not_mem_nil e)

/-- Witness for `create_pdf_heading_lines` on the report
`"# Impression\nNormal study"`. -/
theorem create_pdf_heading_lines_witness :
    PdfElem.heading "Impression" ∈ create_pdf_report_body "# Impression\nNormal study" ∧
    ∀ e ∈ create_pdf_body_app2 "# Impression\nNormal study", isHeadingElem e = false := by
  have h := create_pdf_heading_lines "# Impression\nNormal study" "# Impression"
    (by decide) (by decide) (by decide)
  have e1 : pyStrip (removeHash "# Impression") = "Impression" := by decide
  rw [e1] at h
  exact h

/-- `.data` distributes over string append. -/
theorem str_data_append (a b : String) : (a ++ b).data = a.data ++ b.data := rfl

/-- A list begins with itself followed by anything. -/
theorem beginsWith_append_self (l r : List Char) : beginsWith l (l ++ r) = true := by
  induction l with
  | nil => rfl
  | cons c t ih => simp [beginsWith, ih]

/-- A Boolean-prefix of the haystack is a substring of it. -/
theorem containsSub_of_beginsWith (n h : List Char) (hp : beginsWith n h = true) :
    containsSub n h = true := by
  cases h with
  | nil => simpa [containsSub] using hp
  | cons c rest => simp [containsSub, hp]

/-- Substring containment survives prepending. -/
theorem containsSub_append_left (a b n : List Char) (h : containsSub n b = true) :
    containsSub n (a ++ b) = true := by
  induction a with
  | nil => simpa using h
  | cons c t ih =>
    simp only [List.cons_append, containsSub, Bool.or_eq_true]
    exact Or.inr ih

/-- A list placed in the middle of a concatenation is a substring. -/
theorem containsSub_middle (a n b : List Char) : containsSub n (a ++ (n ++ b)) = true :=
  containsSub_append_left a (n ++ b) n
    (containsSub_of_beginsWith n (n ++ b) (beginsWith_append_self n b))

/-- C7 counterexample: at a concrete export instant, `app2.py`'s download
filenames are `report_<timestamp>.txt/.pdf` and do not contain the report
type stored for the current result (here the X-ray page title). -/
theorem app2_filenames_lack_type :
    txt_filename_app2 ⟨2024, 1, 1, 12, 0, 0⟩ = "report_20240101_120000.txt" ∧
    pdf_filename_app2 ⟨2024, 1, 1, 12, 0, 0⟩ = "report_20240101_120000.pdf" ∧
    containsSub ("🩻 X-ray Analysis").data (txt_filename_app2 ⟨2024, 1, 1, 12, 0, 0⟩).data = false ∧
    containsSub ("🩻 X-ray Analysis").data (pdf_filename_app2 ⟨2024, 1, 1, 12, 0, 0⟩).data = false := by
  refine ⟨by decide, by decide, by decide, by decide⟩

/-- C7 amended: in `app.py` both download filenames contain the
transformed report type (lowercased, spaces replaced by underscores) and
the compact timestamp; in `app2.py` both filenames are the fixed stem
`report_` plus the timestamp and extension, containing the timestamp but
no report-type component. -/
theorem download_filename_shapes (rtype : String) (t : Timestamp) :
    containsSub (spaceToUnderscore (pyLower rtype)).data (txt_filename_app rtype t).data = true ∧
    containsSub (timestampCompact t).data (txt_filename_app rtype t).data = true ∧
    containsSub (spaceToUnderscore (pyLower rtype)).data (pdf_filename_app rtype t).data = true ∧
    containsSub (timestampCompact t).data (pdf_filename_app rtype t).data = true ∧
    txt_filename_app2 t = "report_" ++ timestampCompact t ++ ".txt" ∧
    pdf_filename_app2 t = "report_" ++ timestampCompact t ++ ".pdf" ∧
    containsSub (timestampCompact t).data (txt_filename_app2 t).data = true ∧
    containsSub (timestampCompact t).data (pdf_filename_app2 t).data = true := by
  have htxt : (txt_filename_app rtype t).data =
      (spaceToUnderscore (pyLower rtype)).data ++
        ("_".data ++ ((timestampCompact t).data ++ ".txt".data)) := by
    simp [txt_filename_app, str_data_append, List.append_assoc]
  have hpdf : (pdf_filename_app rtype t).data =
      (spaceToUnderscore (pyLower rtype)).data ++
        ("_".data ++ ((timestampCompact t).data ++ ".pdf".data)) := by
    simp [pdf_filename_app, str_data_append, List.append_assoc]
  have htxt2 : (txt_filename_app2 t).data =
      "report_".data ++ ((timestampCompact t).data ++ ".txt".data) := by
    simp [txt_filename_app2, str_data_append, List.append_assoc]
  have hpdf2 : (pdf_filename_app2 t).data =
      "report_".data ++ ((timestampCompact t).data ++ ".pdf".data) := by
    simp [pdf_filename_app2, str_data_append, List.append_assoc]
  refine ⟨?_, ?_, ?_, ?_, rfl, rfl, ?_, ?_⟩
  · rw [htxt]
    exact containsSub_of_beginsWith _ _ (beginsWith_append_self _ _)
  · rw [htxt, ← List.append_assoc]
    exact containsSub_middle _ _ _
  · rw [hpdf]
    exact containsSub_of_beginsWith _ _ (beginsWith_append_self _ _)
  · rw [hpdf, ← List.append_assoc]
    exact containsSub_middle _ _ _
  · rw [htxt2]
    exact containsSub_middle _ _ _
  · rw [hpdf2]
    exact containsSub_middle _ _ _

end RadiologyAI
